import Mathlib

/-!
Verification of the CollabDocs real-time collaboration backend.

This file shallowly embeds the OT (operational transformation) engine
(`src/server/services/otService.js`: transformOperation, applyOperation,
processOperation), the document model (`src/server/models/Document.js`:
pushVersionSnapshot and the history bound), the permission resolver
(`src/server/services/permissionService.js`: getUserRole, canEdit) and the
session-layer operation handler (`src/server/sockets/documentHandler.js`,
the socket.on operation handler) as pure Lean functions, and proves the
specification claims about them.

Conventions of the embedding:
- JavaScript numbers that hold positions, lengths and versions are modelled
  as Int (JS doubles are exact on this range and may go negative).
- A JS operation object \x7b type, position, text?, length?, baseVersion \x7d is
  modelled as a flat structure in which every field is present; an absent
  numeric field is modelled as 0 and an absent text field as [] (both are
  exactly the falsy values the code tests for, so the validation logic in the
  handler is preserved).
- Document content and operation text are lists of characters (UTF-16 code
  units in the source).
- Timestamps are omitted (they do not affect any claim).
-/

namespace CollabDocs

/-- Model of the JS operation object
\x7b type, position, text?, length?, baseVersion \x7d. -/
structure Operation where
  type : String
  position : Int
  text : List Char
  length : Int
  baseVersion : Int
deriving Repr, DecidableEq

instance : Inhabited Operation := ⟨⟨"", 0, [], 0, 0⟩⟩

/-- Model of a version history entry (Document.js, versionEntrySchema);
the timestamp is omitted. -/
structure VersionEntry where
  version : Int
  contentSnapshot : List Char
  editedBy : String
deriving Repr, DecidableEq

/-- Model of a document record (Document.js, documentSchema); fields not used
by the claims (title, timestamps) are omitted. sharedWith is the list of
(userId, role) share entries. -/
structure Document where
  content : List Char
  version : Int
  owner : String
  sharedWith : List (String × String)
  versionHistory : List VersionEntry
deriving Repr, DecidableEq

/-- Document.js MAX_HISTORY_SIZE. -/
def MAX_HISTORY_SIZE : Nat := 50

/-- Document.js pushVersionSnapshot: append a snapshot of the current
content/version, then keep only the last 50 entries
(this.versionHistory.slice(-MAX_HISTORY_SIZE)). -/
def pushVersionSnapshot (doc : Document) (editedBy : String) : Document :=
  let history := doc.versionHistory ++ [⟨doc.version, doc.content, editedBy⟩]
  { doc with
    versionHistory :=
      if history.length > MAX_HISTORY_SIZE then
        history.drop (history.length - MAX_HISTORY_SIZE)
      else history }

/-- otService.js transformOperation. The source builds a shallow copy of opA
and then runs four independent if-blocks keyed on the types of the original
opA and opB, mutating only the copy; the blocks are chained here in the same
order. -/
def transformOperation (opA opB : Operation) : Operation :=
  let transformed := opA
  let transformed :=
    if opA.type = "insert" ∧ opB.type = "insert" then
      if opB.position ≤ opA.position then
        { transformed with position := transformed.position + (opB.text.length : Int) }
      else transformed
    else transformed
  let transformed :=
    if opA.type = "insert" ∧ opB.type = "delete" then
      if opB.position < opA.position then
        { transformed with
          position := transformed.position - min opB.length (opA.position - opB.position) }
      else transformed
    else transformed
  let transformed :=
    if opA.type = "delete" ∧ opB.type = "insert" then
      if opB.position ≤ opA.position then
        { transformed with position := transformed.position + (opB.text.length : Int) }
      else transformed
    else transformed
  let transformed :=
    if opA.type = "delete" ∧ opB.type = "delete" then
      if opB.position ≥ opA.position + opA.length then
        transformed
      else if opB.position + opB.length ≤ opA.position then
        { transformed with position := transformed.position - opB.length }
      else
        let overlapStart := max opA.position opB.position
        let overlapEnd := min (opA.position + opA.length) (opB.position + opB.length)
        let overlapLength := max 0 (overlapEnd - overlapStart)
        let transformed := { transformed with length := transformed.length - overlapLength }
        let transformed := { transformed with position := min opA.position opB.position }
        if transformed.length ≤ 0 then
          { transformed with length := 0, type := "noop" }
        else transformed
    else transformed
  transformed

/-- JS String.prototype.slice index resolution: a negative index counts from
the end (clamped below at 0), a non-negative index is clamped above at the
length. -/
def jsClampIndex (len : Nat) (i : Int) : Nat :=
  if i < 0 then (max ((len : Int) + i) 0).toNat else min i.toNat len

/-- content.slice(0, i) on a character list. -/
def jsSliceTo (s : List Char) (i : Int) : List Char :=
  s.take (jsClampIndex s.length i)

/-- content.slice(i) on a character list. -/
def jsSliceFrom (s : List Char) (i : Int) : List Char :=
  s.drop (jsClampIndex s.length i)

/-- otService.js applyOperation: noop returns the content unchanged; insert
splices text at the position clamped to [0, len]; delete removes the slice
from the clamped position to min(pos + length, len). Unknown types return
the content unchanged (the logger.warn branch). -/
def applyOperation (content : List Char) (operation : Operation) : List Char :=
  if operation.type = "noop" then
    content
  else if operation.type = "insert" then
    let pos := min (max 0 operation.position) (content.length : Int)
    jsSliceTo content pos ++ operation.text ++ jsSliceFrom content pos
  else if operation.type = "delete" then
    let pos := min (max 0 operation.position) (content.length : Int)
    let endIndex := min (pos + operation.length) (content.length : Int)
    jsSliceTo content pos ++ jsSliceFrom content endIndex
  else
    content

/-- One entry of the per-document in-memory operation buffer
(otService.js operationBuffers). -/
structure BufferEntry where
  version : Int
  operation : Operation
deriving Repr, DecidableEq

/-- otService.js MAX_BUFFER_SIZE. -/
def MAX_BUFFER_SIZE : Nat := 200

/-- The transform fold of processOperation: fold the incoming operation over
the missed buffer entries, stopping as soon as it collapses to noop
(the break in the for-loop happens after the assignment). -/
def foldMissed (op : Operation) (missed : List BufferEntry) : Operation :=
  match missed with
  | [] => op
  | e :: rest =>
    let t := transformOperation op e.operation
    if t.type = "noop" then t else foldMissed t rest

/-- The value of transformedOp computed at the top of processOperation: if the
client is behind, transform against the buffer entries with version greater
than the operation's baseVersion; otherwise the operation is kept as-is
(the source spreads it into a copy). -/
def transformIncoming (document : Document) (buffer : List BufferEntry)
    (operation : Operation) : Operation :=
  if operation.baseVersion < document.version then
    foldMissed operation (buffer.filter (fun e => e.version > operation.baseVersion))
  else operation

/-- otService.js buffer trimming: buffer.splice(0, buffer.length -
MAX_BUFFER_SIZE) removes the oldest entries, keeping the last 200. -/
def trimBuffer (buffer : List BufferEntry) : List BufferEntry :=
  if buffer.length > MAX_BUFFER_SIZE then
    buffer.drop (buffer.length - MAX_BUFFER_SIZE)
  else buffer

/-- Result record of processOperation. -/
structure ProcessResult where
  document : Document
  buffer : List BufferEntry
  transformedOp : Operation
  newVersion : Int
deriving Repr, DecidableEq

/-- otService.js processOperation, with the document record and the buffer
passed as explicit state (the source fetches the record by id and mutates it
and the shared buffer in place). The document-not-found throw is outside this
function: its caller in the handler model only reaches it when the document
exists. -/
def processOperation (document : Document) (buffer : List BufferEntry)
    (operation : Operation) (userId : String) : ProcessResult :=
  let transformedOp := transformIncoming document buffer operation
  if transformedOp.type = "noop" then
    ⟨document, buffer, transformedOp, document.version⟩
  else
    let document := pushVersionSnapshot document userId
    let newContent := applyOperation document.content transformedOp
    let document := { document with content := newContent, version := document.version + 1 }
    let buffer := trimBuffer (buffer ++ [⟨document.version, transformedOp⟩])
    ⟨document, buffer, transformedOp, document.version⟩

/-- permissionService.js getUserRole: owner wins, otherwise look the user up
in sharedWith; null (here: none) when absent. -/
def getUserRole (document : Document) (userId : String) : Option String :=
  if document.owner = userId then
    some "owner"
  else
    (document.sharedWith.find? (fun entry => entry.1 = userId)).map (fun entry => entry.2)

/-- permissionService.js canEdit: role is non-null and in EDIT_ROLES =
\x7bowner, editor\x7d. -/
def canEdit (document : Document) (userId : String) : Bool :=
  match getUserRole document userId with
  | some role => role = "owner" ∨ role = "editor"
  | none => false

/-- Outbound session events relevant to the claims
(documentHandler.js): error_message, operation_ack to the originator and
remote_operation broadcast to the room members other than the originator. -/
inductive Event where
  | errorMessage (message : String)
  | operationAck (operation : Operation) (version : Int) (userId : String)
  | remoteOperation (recipients : List String) (operation : Operation)
      (version : Int) (userId : String)
deriving Repr, DecidableEq

/-- Server-side state visible to the operation handler, for one document:
the stored document record (none when findById misses), the OT buffer, the
members of the socket room doc:<id>, and the keys of the local
activeUsers map (populated only by join_document). -/
structure ServerState where
  document : Option Document
  buffer : List BufferEntry
  roomMembers : List String
  activeUsers : List String
deriving Repr, DecidableEq

/-- documentHandler.js socket.on operation: permission re-check on the
freshly loaded document (a missing document and a missing edit role emit the
same message), shape validation with JS falsiness (type missing/empty, insert
text missing/empty, delete length missing/zero), then processOperation, then
operation_ack to the sender and remote_operation to the rest of the room.
The room and activeUsers state is never consulted. -/
def handleOperation (st : ServerState) (userId : String) (operation : Operation) :
    ServerState × List Event :=
  match st.document with
  | none => (st, [Event.errorMessage "Edit permission denied."])
  | some doc =>
    if ¬ canEdit doc userId then
      (st, [Event.errorMessage "Edit permission denied."])
    else if operation.type = "" then
      (st, [Event.errorMessage "Invalid operation format."])
    else if operation.type = "insert" ∧ operation.text = [] then
      (st, [Event.errorMessage "Insert operation requires text."])
    else if operation.type = "delete" ∧ operation.length = 0 then
      (st, [Event.errorMessage "Delete operation requires length."])
    else
      let r := processOperation doc st.buffer operation userId
      ({ st with document := some r.document, buffer := r.buffer },
       [Event.operationAck r.transformedOp r.newVersion userId,
        Event.remoteOperation (st.roomMembers.filter (fun u => u ≠ userId))
          r.transformedOp r.newVersion userId])

/-- Discriminator for error_message events, used to state that an operation
was accepted (passed on to processOperation) rather than rejected. -/
def Event.isError : Event → Bool
  | .errorMessage _ => true
  | _ => false

/-- Modelled from the spec (section 4.1 transform table, insert-vs-delete
row): if b.position + b.length le a.position then shift left by b.length;
else if b.position lt a.position then move to b.position; else unchanged. -/
def specInsertDeleteRule (a b : Operation) : Operation :=
  if b.position + b.length ≤ a.position then
    { a with position := a.position - b.length }
  else if b.position < a.position then
    { a with position := b.position }
  else a

/-!
Heap model for the purity claim about transformOperation. A JS object heap is
a list of operation records; an object reference is an index. Reading a field
dereferences the index into the current heap, and a field assignment updates
the record in place at that index. transformOperationRef is the source
function transcribed against this heap: the spread on entry allocates a fresh
cell copying opA, every subsequent mutation targets only that fresh cell, and
every property access of opA and opB re-reads the argument cells from the
then-current heap, exactly as JS property accesses do.
-/

/-- Dereference a JS object reference in the heap. -/
def readOp (h : List Operation) (i : Nat) : Operation :=
  h.getD i default

/-- In-place field assignment on the object at index i. -/
def heapUpdate (h : List Operation) (i : Nat) (f : Operation → Operation) :
    List Operation :=
  h.set i (f (h.getD i default))

/-- otService.js transformOperation against the explicit heap: arguments are
references ia and ib, the result is the updated heap together with the
reference to the freshly allocated transformed object. -/
def transformOperationRef (h : List Operation) (ia ib : Nat) : List Operation × Nat :=
  let t := h.length
  let h1 := h ++ [readOp h ia]
  let h2 :=
    if (readOp h1 ia).type = "insert" ∧ (readOp h1 ib).type = "insert" then
      if (readOp h1 ib).position ≤ (readOp h1 ia).position then
        heapUpdate h1 t (fun o => { o with position := o.position + ((readOp h1 ib).text.length : Int) })
      else h1
    else h1
  let h3 :=
    if (readOp h2 ia).type = "insert" ∧ (readOp h2 ib).type = "delete" then
      if (readOp h2 ib).position < (readOp h2 ia).position then
        heapUpdate h2 t (fun o =>
          { o with position := o.position - min (readOp h2 ib).length ((readOp h2 ia).position - (readOp h2 ib).position) })
      else h2
    else h2
  let h4 :=
    if (readOp h3 ia).type = "delete" ∧ (readOp h3 ib).type = "insert" then
      if (readOp h3 ib).position ≤ (readOp h3 ia).position then
        heapUpdate h3 t (fun o => { o with position := o.position + ((readOp h3 ib).text.length : Int) })
      else h3
    else h3
  let h5 :=
    if (readOp h4 ia).type = "delete" ∧ (readOp h4 ib).type = "delete" then
      if (readOp h4 ib).position ≥ (readOp h4 ia).position + (readOp h4 ia).length then
        h4
      else if (readOp h4 ib).position + (readOp h4 ib).length ≤ (readOp h4 ia).position then
        heapUpdate h4 t (fun o => { o with position := o.position - (readOp h4 ib).length })
      else
        let overlapStart := max (readOp h4 ia).position (readOp h4 ib).position
        let overlapEnd := min ((readOp h4 ia).position + (readOp h4 ia).length)
          ((readOp h4 ib).position + (readOp h4 ib).length)
        let overlapLength := max 0 (overlapEnd - overlapStart)
        let h4a := heapUpdate h4 t (fun o => { o with length := o.length - overlapLength })
        let h4b := heapUpdate h4a t (fun o =>
          { o with position := min (readOp h4a ia).position (readOp h4a ib).position })
        if (readOp h4b t).length ≤ 0 then
          heapUpdate h4b t (fun o => { o with length := 0, type := "noop" })
        else h4b
    else h4
  (h5, t)

/-! Helper lemmas about the heap model. -/

theorem readOp_append_lt (h : List Operation) (x : Operation) (i : Nat)
    (hi : i < h.length) : readOp (h ++ [x]) i = readOp h i := by
  simp [readOp, List.getD, List.getElem?_append, hi]

theorem readOp_append_self (h : List Operation) (x : Operation) :
    readOp (h ++ [x]) h.length = x := by
  simp [readOp, List.getD, List.getElem?_append]

theorem heapUpdate_append_last (h : List Operation) (x : Operation)
    (f : Operation → Operation) :
    heapUpdate (h ++ [x]) h.length f = h ++ [f x] := by
  simp [heapUpdate, List.getD, List.getElem?_append, List.set_append]

/-- Stage lemma for the insert/insert block of transformOperationRef: acting
on a heap of shape h ++ [x] with the transformed object last, the block
rewrites to an append of the corresponding pure block. -/
theorem refStage1 (h : List Operation) (ia ib : Nat) (x : Operation)
    (hia : ia < h.length) (hib : ib < h.length) :
    (if (readOp (h ++ [x]) ia).type = "insert" ∧ (readOp (h ++ [x]) ib).type = "insert" then
       if (readOp (h ++ [x]) ib).position ≤ (readOp (h ++ [x]) ia).position then
         heapUpdate (h ++ [x]) h.length
           (fun o => { o with position := o.position + ((readOp (h ++ [x]) ib).text.length : Int) })
       else h ++ [x]
     else h ++ [x])
    = h ++ [if (readOp h ia).type = "insert" ∧ (readOp h ib).type = "insert" then
              if (readOp h ib).position ≤ (readOp h ia).position then
                { x with position := x.position + ((readOp h ib).text.length : Int) }
              else x
            else x] := by
  simp only [readOp_append_lt _ _ _ hia, readOp_append_lt _ _ _ hib]
  split_ifs <;> simp [heapUpdate_append_last]

/-- Stage lemma for the insert/delete block of transformOperationRef. -/
theorem refStage2 (h : List Operation) (ia ib : Nat) (x : Operation)
    (hia : ia < h.length) (hib : ib < h.length) :
    (if (readOp (h ++ [x]) ia).type = "insert" ∧ (readOp (h ++ [x]) ib).type = "delete" then
       if (readOp (h ++ [x]) ib).position < (readOp (h ++ [x]) ia).position then
         heapUpdate (h ++ [x]) h.length
           (fun o =>
             { o with position := o.position - min (readOp (h ++ [x]) ib).length ((readOp (h ++ [x]) ia).position - (readOp (h ++ [x]) ib).position) })
       else h ++ [x]
     else h ++ [x])
    = h ++ [if (readOp h ia).type = "insert" ∧ (readOp h ib).type = "delete" then
              if (readOp h ib).position < (readOp h ia).position then
                { x with position := x.position - min (readOp h ib).length ((readOp h ia).position - (readOp h ib).position) }
              else x
            else x] := by
  simp only [readOp_append_lt _ _ _ hia, readOp_append_lt _ _ _ hib]
  split_ifs <;> simp [heapUpdate_append_last]

/-- Stage lemma for the delete/insert block of transformOperationRef. -/
theorem refStage3 (h : List Operation) (ia ib : Nat) (x : Operation)
    (hia : ia < h.length) (hib : ib < h.length) :
    (if (readOp (h ++ [x]) ia).type = "delete" ∧ (readOp (h ++ [x]) ib).type = "insert" then
       if (readOp (h ++ [x]) ib).position ≤ (readOp (h ++ [x]) ia).position then
         heapUpdate (h ++ [x]) h.length
           (fun o => { o with position := o.position + ((readOp (h ++ [x]) ib).text.length : Int) })
       else h ++ [x]
     else h ++ [x])
    = h ++ [if (readOp h ia).type = "delete" ∧ (readOp h ib).type = "insert" then
              if (readOp h ib).position ≤ (readOp h ia).position then
                { x with position := x.position + ((readOp h ib).text.length : Int) }
              else x
            else x] := by
  simp only [readOp_append_lt _ _ _ hia, readOp_append_lt _ _ _ hib]
  split_ifs <;> simp [heapUpdate_append_last]

/-- Stage lemma for the delete/delete block of transformOperationRef, spelled
out with its let-bindings substituted. -/
theorem refStage4 (h : List Operation) (ia ib : Nat) (x : Operation)
    (hia : ia < h.length) (hib : ib < h.length) :
    (if (readOp (h ++ [x]) ia).type = "delete" ∧ (readOp (h ++ [x]) ib).type = "delete" then
       if (readOp (h ++ [x]) ib).position ≥ (readOp (h ++ [x]) ia).position + (readOp (h ++ [x]) ia).length then
         h ++ [x]
       else if (readOp (h ++ [x]) ib).position + (readOp (h ++ [x]) ib).length ≤ (readOp (h ++ [x]) ia).position then
         heapUpdate (h ++ [x]) h.length (fun o => { o with position := o.position - (readOp (h ++ [x]) ib).length })
       else
         if (readOp (heapUpdate (heapUpdate (h ++ [x]) h.length (fun o => { o with length := o.length - max 0 (min ((readOp (h ++ [x]) ia).position + (readOp (h ++ [x]) ia).length) ((readOp (h ++ [x]) ib).position + (readOp (h ++ [x]) ib).length) - max (readOp (h ++ [x]) ia).position (readOp (h ++ [x]) ib).position) })) h.length (fun o => { o with position := min (readOp (heapUpdate (h ++ [x]) h.length (fun o => { o with length := o.length - max 0 (min ((readOp (h ++ [x]) ia).position + (readOp (h ++ [x]) ia).length) ((readOp (h ++ [x]) ib).position + (readOp (h ++ [x]) ib).length) - max (readOp (h ++ [x]) ia).position (readOp (h ++ [x]) ib).position) })) ia).position (readOp (heapUpdate (h ++ [x]) h.length (fun o => { o with length := o.length - max 0 (min ((readOp (h ++ [x]) ia).position + (readOp (h ++ [x]) ia).length) ((readOp (h ++ [x]) ib).position + (readOp (h ++ [x]) ib).length) - max (readOp (h ++ [x]) ia).position (readOp (h ++ [x]) ib).position) })) ib).position })) h.length).length ≤ 0 then
           heapUpdate (heapUpdate (heapUpdate (h ++ [x]) h.length (fun o => { o with length := o.length - max 0 (min ((readOp (h ++ [x]) ia).position + (readOp (h ++ [x]) ia).length) ((readOp (h ++ [x]) ib).position + (readOp (h ++ [x]) ib).length) - max (readOp (h ++ [x]) ia).position (readOp (h ++ [x]) ib).position) })) h.length (fun o => { o with position := min (readOp (heapUpdate (h ++ [x]) h.length (fun o => { o with length := o.length - max 0 (min ((readOp (h ++ [x]) ia).position + (readOp (h ++ [x]) ia).length) ((readOp (h ++ [x]) ib).position + (readOp (h ++ [x]) ib).length) - max (readOp (h ++ [x]) ia).position (readOp (h ++ [x]) ib).position) })) ia).position (readOp (heapUpdate (h ++ [x]) h.length (fun o => { o with length := o.length - max 0 (min ((readOp (h ++ [x]) ia).position + (readOp (h ++ [x]) ia).length) ((readOp (h ++ [x]) ib).position + (readOp (h ++ [x]) ib).length) - max (readOp (h ++ [x]) ia).position (readOp (h ++ [x]) ib).position) })) ib).position })) h.length (fun o => { o with length := 0, type := "noop" })
         else
           heapUpdate (heapUpdate (h ++ [x]) h.length (fun o => { o with length := o.length - max 0 (min ((readOp (h ++ [x]) ia).position + (readOp (h ++ [x]) ia).length) ((readOp (h ++ [x]) ib).position + (readOp (h ++ [x]) ib).length) - max (readOp (h ++ [x]) ia).position (readOp (h ++ [x]) ib).position) })) h.length (fun o => { o with position := min (readOp (heapUpdate (h ++ [x]) h.length (fun o => { o with length := o.length - max 0 (min ((readOp (h ++ [x]) ia).position + (readOp (h ++ [x]) ia).length) ((readOp (h ++ [x]) ib).position + (readOp (h ++ [x]) ib).length) - max (readOp (h ++ [x]) ia).position (readOp (h ++ [x]) ib).position) })) ia).position (readOp (heapUpdate (h ++ [x]) h.length (fun o => { o with length := o.length - max 0 (min ((readOp (h ++ [x]) ia).position + (readOp (h ++ [x]) ia).length) ((readOp (h ++ [x]) ib).position + (readOp (h ++ [x]) ib).length) - max (readOp (h ++ [x]) ia).position (readOp (h ++ [x]) ib).position) })) ib).position })
     else h ++ [x])
    = h ++ [if (readOp h ia).type = "delete" ∧ (readOp h ib).type = "delete" then
              if (readOp h ib).position ≥ (readOp h ia).position + (readOp h ia).length then x
              else if (readOp h ib).position + (readOp h ib).length ≤ (readOp h ia).position then
                { x with position := x.position - (readOp h ib).length }
              else
                if ({ { x with length := x.length - max 0 (min ((readOp h ia).position + (readOp h ia).length) ((readOp h ib).position + (readOp h ib).length) - max (readOp h ia).position (readOp h ib).position) } with position := min (readOp h ia).position (readOp h ib).position }).length ≤ 0 then
                  { { { x with length := x.length - max 0 (min ((readOp h ia).position + (readOp h ia).length) ((readOp h ib).position + (readOp h ib).length) - max (readOp h ia).position (readOp h ib).position) } with position := min (readOp h ia).position (readOp h ib).position } with length := 0, type := "noop" }
                else
                  { { x with length := x.length - max 0 (min ((readOp h ia).position + (readOp h ia).length) ((readOp h ib).position + (readOp h ib).length) - max (readOp h ia).position (readOp h ib).position) } with position := min (readOp h ia).position (readOp h ib).position }
            else x] := by
  simp only [heapUpdate_append_last, readOp_append_self,
    readOp_append_lt _ _ _ hia, readOp_append_lt _ _ _ hib]
  split_ifs <;> simp_all [heapUpdate_append_last]

/-! Helper lemmas about processOperation and the buffer. -/

/-- Unfolding of processOperation when the transformed operation is not a
noop. -/
theorem processOperation_nonNoop (d : Document) (b : List BufferEntry)
    (op : Operation) (u : String)
    (hn : (transformIncoming d b op).type ≠ "noop") :
    processOperation d b op u =
      ⟨{ pushVersionSnapshot d u with
           content := applyOperation d.content (transformIncoming d b op),
           version := d.version + 1 },
       trimBuffer (b ++ [⟨d.version + 1, transformIncoming d b op⟩]),
       transformIncoming d b op, d.version + 1⟩ := by
  simp only [processOperation]
  rw [if_neg hn]
  simp [pushVersionSnapshot]

/-- trimBuffer never returns more than MAX_BUFFER_SIZE entries. -/
theorem trimBuffer_length_le (l : List BufferEntry) :
    (trimBuffer l).length ≤ MAX_BUFFER_SIZE := by
  unfold trimBuffer
  split
  · simp only [List.length_drop]
    omega
  · omega

/-- trimBuffer preserves any pairwise property (it keeps a suffix). -/
theorem trimBuffer_pairwise (R : BufferEntry → BufferEntry → Prop)
    (l : List BufferEntry) (hp : l.Pairwise R) : (trimBuffer l).Pairwise R := by
  unfold trimBuffer
  split
  · exact List.Pairwise.sublist (List.drop_sublist _ _) hp
  · exact hp

/-! Claim C1: rejection of operations with baseVersion above the current
version. -/

/-- Claim C1, counterexample: the document is at version 1 and the incoming
insert carries baseVersion 2 (greater than the current version), yet
processOperation does not reject it: the version changes, the content
changes, the buffer receives an entry, and the handler acks the operation.
This refutes the claim that such an operation is rejected with
InvalidBaseVersion and nothing is applied or emitted. -/
theorem c1_counterexample :
    (⟨"insert", 0, ['B'], 0, 2⟩ : Operation).baseVersion > (⟨['A'], 1, "u1", [], []⟩ : Document).version ∧
    (processOperation ⟨['A'], 1, "u1", [], []⟩ [] ⟨"insert", 0, ['B'], 0, 2⟩ "u1").document.version ≠ (1 : Int) ∧
    (processOperation ⟨['A'], 1, "u1", [], []⟩ [] ⟨"insert", 0, ['B'], 0, 2⟩ "u1").document.content ≠ ['A'] ∧
    (processOperation ⟨['A'], 1, "u1", [], []⟩ [] ⟨"insert", 0, ['B'], 0, 2⟩ "u1").buffer ≠ [] ∧
    (handleOperation ⟨some ⟨['A'], 1, "u1", [], []⟩, [], ["u1"], ["u1"]⟩ "u1" ⟨"insert", 0, ['B'], 0, 2⟩).2 =
      [Event.operationAck ⟨"insert", 0, ['B'], 0, 2⟩ 2 "u1",
       Event.remoteOperation [] ⟨"insert", 0, ['B'], 0, 2⟩ 2 "u1"] := by decide

/-- Claim C1, amended: when the document exists and op.baseVersion is
greater than document.version, the operation is not rejected; the transform
fold is skipped entirely (baseVersion lt version fails), so the operation is
applied as-is when it is not a noop: a snapshot is pushed, the content
becomes applyOperation(content, op), the version increments by exactly 1,
and (version + 1, op) is appended to the operation buffer. -/
theorem c1_amended_applied_untransformed (d : Document) (b : List BufferEntry)
    (op : Operation) (u : String)
    (hv : d.version < op.baseVersion) (hn : op.type ≠ "noop") :
    processOperation d b op u =
      ⟨{ pushVersionSnapshot d u with
           content := applyOperation d.content op, version := d.version + 1 },
       trimBuffer (b ++ [⟨d.version + 1, op⟩]), op, d.version + 1⟩ := by
  have ht : transformIncoming d b op = op := by
    unfold transformIncoming
    rw [if_neg (by omega)]
  rw [processOperation_nonNoop d b op u (by rw [ht]; exact hn), ht]

/-- Witness for the amended C1 at a concrete input. -/
theorem c1_amended_applied_untransformed_witness :
    (⟨['A'], 1, "u1", [], []⟩ : Document).version < (⟨"insert", 0, ['B'], 0, 2⟩ : Operation).baseVersion ∧
    (⟨"insert", 0, ['B'], 0, 2⟩ : Operation).type ≠ "noop" ∧
    processOperation ⟨['A'], 1, "u1", [], []⟩ [] ⟨"insert", 0, ['B'], 0, 2⟩ "u1" =
      ⟨⟨['B', 'A'], 2, "u1", [], [⟨1, ['A'], "u1"⟩]⟩,
       [⟨2, ⟨"insert", 0, ['B'], 0, 2⟩⟩], ⟨"insert", 0, ['B'], 0, 2⟩, 2⟩ :=
  ⟨by decide, by decide,
    (c1_amended_applied_untransformed ⟨['A'], 1, "u1", [], []⟩ []
      ⟨"insert", 0, ['B'], 0, 2⟩ "u1" (by decide) (by decide)).trans (by decide)⟩

/-! Claim C2: the insert-vs-delete special case of the source equals the
table rule of the specification. -/

/-- Claim C2: for every insert operation a and delete operation b with
b.length ge 1, transformOperation a b equals the authoritative table rule of
section 4.1 (shift left by b.length when the delete ends at or before the
insert position; clamp to b.position when the insert falls inside the
deleted region; unchanged otherwise). The min-based source formula and the
table rule coincide under this precondition. -/
theorem c2_insert_delete_refines_table (a b : Operation)
    (ha : a.type = "insert") (hb : b.type = "delete") (hlen : 1 ≤ b.length) :
    transformOperation a b = specInsertDeleteRule a b := by
  obtain ⟨ta, pa, xa, la, ba⟩ := a
  obtain ⟨tb, pb, xb, lb, bb⟩ := b
  simp only at ha hb hlen
  subst ha
  subst hb
  simp only [transformOperation, specInsertDeleteRule]
  simp only [String.reduceEq, false_and, and_false, and_self, if_false, if_true,
    ite_false, ite_true, and_true, true_and]
  rw [min_def]
  split_ifs <;> simp_all [Operation.mk.injEq] <;> omega

/-- Witness for C2 at a concrete input where the insert lies strictly inside
the deleted region. -/
theorem c2_insert_delete_refines_table_witness :
    (⟨"insert", 2, ['Z'], 0, 1⟩ : Operation).type = "insert" ∧
    (⟨"delete", 1, [], 3, 1⟩ : Operation).type = "delete" ∧
    (1 : Int) ≤ (⟨"delete", 1, [], 3, 1⟩ : Operation).length ∧
    transformOperation ⟨"insert", 2, ['Z'], 0, 1⟩ ⟨"delete", 1, [], 3, 1⟩ =
      specInsertDeleteRule ⟨"insert", 2, ['Z'], 0, 1⟩ ⟨"delete", 1, [], 3, 1⟩ :=
  ⟨rfl, rfl, by decide,
    c2_insert_delete_refines_table ⟨"insert", 2, ['Z'], 0, 1⟩ ⟨"delete", 1, [], 3, 1⟩
      rfl rfl (by decide)⟩

/-! Claim C3: concurrent same-position inserts tie-break toward the
server-accepted operation. -/

/-- Claim C3: transformOperation shifts an insert right by the length of
b.text whenever b.position le a.position, including equality, and the S1
scenario holds: from content AC at version 1, accepting insert B at 1
gives ABC at version 2, and processing the concurrent insert X at 1
(baseVersion 1) transforms its position to 2, yielding ABXC at version 3. -/
theorem c3_insert_insert_tiebreak :
    (∀ a b : Operation, a.type = "insert" → b.type = "insert" →
        b.position ≤ a.position →
        transformOperation a b = { a with position := a.position + (b.text.length : Int) }) ∧
    (processOperation ⟨['A', 'C'], 1, "u1", [("u2", "editor")], []⟩ []
        ⟨"insert", 1, ['B'], 0, 1⟩ "u1").document.content = ['A', 'B', 'C'] ∧
    (processOperation ⟨['A', 'C'], 1, "u1", [("u2", "editor")], []⟩ []
        ⟨"insert", 1, ['B'], 0, 1⟩ "u1").document.version = 2 ∧
    (processOperation
        (processOperation ⟨['A', 'C'], 1, "u1", [("u2", "editor")], []⟩ []
          ⟨"insert", 1, ['B'], 0, 1⟩ "u1").document
        (processOperation ⟨['A', 'C'], 1, "u1", [("u2", "editor")], []⟩ []
          ⟨"insert", 1, ['B'], 0, 1⟩ "u1").buffer
        ⟨"insert", 1, ['X'], 0, 1⟩ "u2").transformedOp.position = 2 ∧
    (processOperation
        (processOperation ⟨['A', 'C'], 1, "u1", [("u2", "editor")], []⟩ []
          ⟨"insert", 1, ['B'], 0, 1⟩ "u1").document
        (processOperation ⟨['A', 'C'], 1, "u1", [("u2", "editor")], []⟩ []
          ⟨"insert", 1, ['B'], 0, 1⟩ "u1").buffer
        ⟨"insert", 1, ['X'], 0, 1⟩ "u2").document.content = ['A', 'B', 'X', 'C'] ∧
    (processOperation
        (processOperation ⟨['A', 'C'], 1, "u1", [("u2", "editor")], []⟩ []
          ⟨"insert", 1, ['B'], 0, 1⟩ "u1").document
        (processOperation ⟨['A', 'C'], 1, "u1", [("u2", "editor")], []⟩ []
          ⟨"insert", 1, ['B'], 0, 1⟩ "u1").buffer
        ⟨"insert", 1, ['X'], 0, 1⟩ "u2").document.version = 3 := by
  refine ⟨?_, by decide, by decide, by decide, by decide, by decide⟩
  intro a b ha hb hle
  simp [transformOperation, ha, hb, hle]

/-- Witness for the quantified part of C3 at the S1 tie-break input. -/
theorem c3_insert_insert_tiebreak_witness :
    (⟨"insert", 1, ['B'], 0, 1⟩ : Operation).position ≤ (⟨"insert", 1, ['X'], 0, 1⟩ : Operation).position ∧
    transformOperation ⟨"insert", 1, ['X'], 0, 1⟩ ⟨"insert", 1, ['B'], 0, 1⟩ = ⟨"insert", 2, ['X'], 0, 1⟩ :=
  ⟨by decide,
    (c3_insert_insert_tiebreak.1 ⟨"insert", 1, ['X'], 0, 1⟩ ⟨"insert", 1, ['B'], 0, 1⟩
      rfl rfl (by decide)).trans (by decide)⟩

/-! Claim C4: a delete fully covered by a concurrent accepted delete
collapses to a noop (scenario S3). -/

/-- Document of scenario S3: content ABCDE at version 1. -/
def c4Doc : Document := ⟨['A', 'B', 'C', 'D', 'E'], 1, "u1", [("u2", "editor")], []⟩

/-- First delete of scenario S3 (accepted first). -/
def c4DeleteA : Operation := ⟨"delete", 1, [], 3, 1⟩

/-- Second, concurrent delete of scenario S3. -/
def c4DeleteB : Operation := ⟨"delete", 2, [], 2, 1⟩

/-- Result of accepting the first delete. -/
def c4Step1 : ProcessResult := processOperation c4Doc [] c4DeleteA "u1"

/-- Server state after the first delete, with both users in the room. -/
def c4State : ServerState := ⟨some c4Step1.document, c4Step1.buffer, ["u1", "u2"], ["u1", "u2"]⟩

/-- Handler result for the second delete. -/
def c4Step2 : ServerState × List Event := handleOperation c4State "u2" c4DeleteB

/-- Claim C4: in scenario S3 the first delete yields content AE at version 2;
the concurrent delete at position 2, length 2, baseVersion 1 transforms to a
noop with length 0; the state is unchanged by the second operation (the
document stays at version 2 with content AE) and the ack to the originator
carries the noop operation with version 2. -/
theorem c4_overlapping_deletes_noop :
    c4Step1.document.content = ['A', 'E'] ∧ c4Step1.document.version = 2 ∧
    transformIncoming c4Step1.document c4Step1.buffer c4DeleteB = ⟨"noop", 1, [], 0, 1⟩ ∧
    c4Step2.1 = c4State ∧
    c4Step2.2 = [Event.operationAck ⟨"noop", 1, [], 0, 1⟩ 2 "u2",
      Event.remoteOperation ["u1"] ⟨"noop", 1, [], 0, 1⟩ 2 "u2"] := by decide

/-! Claim C5: a transform that collapses to noop causes no state change at
all. -/

/-- Claim C5: whenever the transform fold collapses the incoming operation
to a noop, processOperation returns the document and the buffer exactly as
they were (so content, version and version history are unchanged and no
snapshot is pushed) together with the current version. -/
theorem c5_noop_no_state_change (d : Document) (b : List BufferEntry)
    (op : Operation) (u : String)
    (hn : (transformIncoming d b op).type = "noop") :
    processOperation d b op u = ⟨d, b, transformIncoming d b op, d.version⟩ := by
  simp only [processOperation]
  rw [if_pos hn]

/-- Witness for C5 at the S3 overlap input. -/
theorem c5_noop_no_state_change_witness :
    (transformIncoming ⟨['A', 'E'], 2, "u1", [("u2", "editor")], [⟨1, ['A','B','C','D','E'], "u1"⟩]⟩
      [⟨2, ⟨"delete", 1, [], 3, 1⟩⟩] ⟨"delete", 2, [], 2, 1⟩).type = "noop" ∧
    processOperation ⟨['A', 'E'], 2, "u1", [("u2", "editor")], [⟨1, ['A','B','C','D','E'], "u1"⟩]⟩
      [⟨2, ⟨"delete", 1, [], 3, 1⟩⟩] ⟨"delete", 2, [], 2, 1⟩ "u2" =
      ⟨⟨['A', 'E'], 2, "u1", [("u2", "editor")], [⟨1, ['A','B','C','D','E'], "u1"⟩]⟩,
       [⟨2, ⟨"delete", 1, [], 3, 1⟩⟩], ⟨"noop", 1, [], 0, 1⟩, 2⟩ :=
  ⟨by decide,
    (c5_noop_no_state_change _ _ _ "u2" (by decide)).trans (by decide)⟩

/-! Claim C6: version increment and buffer discipline for accepted non-noop
operations. -/

/-- Claim C6: for every processOperation call whose transformed operation is
not a noop, the document version after the call is the version before plus
exactly 1, the pair (newVersion, transformedOp) is appended to the buffer
via the bounded trim (oldest entries dropped), and, assuming the buffer was
strictly version-monotone with all entries at or below the current version,
the resulting buffer is strictly version-monotone and holds at most 200
entries. -/
theorem c6_version_and_buffer (d : Document) (b : List BufferEntry)
    (op : Operation) (u : String)
    (hn : (transformIncoming d b op).type ≠ "noop")
    (hmono : b.Pairwise (fun x y => x.version < y.version))
    (hle : ∀ e ∈ b, e.version ≤ d.version) :
    (processOperation d b op u).document.version = d.version + 1 ∧
    (processOperation d b op u).newVersion = d.version + 1 ∧
    (processOperation d b op u).transformedOp = transformIncoming d b op ∧
    (processOperation d b op u).buffer =
      trimBuffer (b ++ [⟨d.version + 1, transformIncoming d b op⟩]) ∧
    (processOperation d b op u).buffer.Pairwise (fun x y => x.version < y.version) ∧
    (processOperation d b op u).buffer.length ≤ MAX_BUFFER_SIZE := by
  rw [processOperation_nonNoop d b op u hn]
  refine ⟨rfl, rfl, rfl, rfl, ?_, trimBuffer_length_le _⟩
  apply trimBuffer_pairwise
  rw [List.pairwise_append]
  refine ⟨hmono, List.pairwise_singleton _ _, ?_⟩
  intro x hx y hy
  simp only [List.mem_singleton] at hy
  subst hy
  have := hle x hx
  simp only
  omega

/-- Document used by the C6 witness. -/
def c6Doc : Document := ⟨['A', 'C'], 1, "u1", [], []⟩

/-- Operation used by the C6 witness. -/
def c6Op : Operation := ⟨"insert", 1, ['B'], 0, 1⟩

/-- Witness for C6 at a concrete input with an empty buffer. -/
theorem c6_version_and_buffer_witness :
    (transformIncoming c6Doc [] c6Op).type ≠ "noop" ∧
    ([] : List BufferEntry).Pairwise (fun x y => x.version < y.version) ∧
    ((processOperation c6Doc [] c6Op "u1").document.version = c6Doc.version + 1 ∧
     (processOperation c6Doc [] c6Op "u1").newVersion = c6Doc.version + 1 ∧
     (processOperation c6Doc [] c6Op "u1").transformedOp = transformIncoming c6Doc [] c6Op ∧
     (processOperation c6Doc [] c6Op "u1").buffer =
       trimBuffer ([] ++ [⟨c6Doc.version + 1, transformIncoming c6Doc [] c6Op⟩]) ∧
     (processOperation c6Doc [] c6Op "u1").buffer.Pairwise (fun x y => x.version < y.version) ∧
     (processOperation c6Doc [] c6Op "u1").buffer.length ≤ MAX_BUFFER_SIZE) :=
  ⟨by decide, List.Pairwise.nil,
    c6_version_and_buffer c6Doc [] c6Op "u1" (by decide) List.Pairwise.nil (by simp)⟩

/-! Claim C7: delete length validation in the session-layer operation
handler. -/

/-- Claim C7, counterexample: a delete with length minus 1 arrives; the
handler emits no error_message (the JS falsiness test only catches length 0
or a missing length), forwards it to processOperation, and the document is
mutated, refuting both that accepted deletes satisfy length ge 1 and that
deletes with length lt 1 are answered with error_message leaving the
document unchanged. -/
theorem c7_counterexample :
    ((⟨"delete", 2, [], -1, 1⟩ : Operation).length < 1) ∧
    ((handleOperation ⟨some ⟨['A', 'B', 'C'], 1, "u1", [], []⟩, [], ["u1"], ["u1"]⟩ "u1"
        ⟨"delete", 2, [], -1, 1⟩).2.any Event.isError) = false ∧
    (handleOperation ⟨some ⟨['A', 'B', 'C'], 1, "u1", [], []⟩, [], ["u1"], ["u1"]⟩ "u1"
        ⟨"delete", 2, [], -1, 1⟩).1.document =
      some ⟨['A', 'B', 'B', 'C'], 2, "u1", [], [⟨1, ['A', 'B', 'C'], "u1"⟩]⟩ := by decide

/-- Claim C7, amended: every delete operation accepted by the handler (no
error_message among the emitted events) satisfies length ne 0, and every
delete arriving with length equal to 0 (the JS-falsy case, which also covers
a missing length) is answered with error_message and leaves the state
unchanged. Deletes with negative length are accepted. -/
theorem c7_amended_delete_validation :
    (∀ (st : ServerState) (u : String) (op : Operation), op.type = "delete" →
        ((handleOperation st u op).2.any Event.isError) = false → op.length ≠ 0) ∧
    (∀ (st : ServerState) (d : Document) (u : String) (op : Operation),
        st.document = some d → canEdit d u = true → op.type = "delete" →
        op.length = 0 →
        handleOperation st u op =
          (st, [Event.errorMessage "Delete operation requires length."])) := by
  constructor
  · intro st u op hty hof hzero
    rcases hst : st.document with _ | d
    · simp [handleOperation, hst, Event.isError] at hof
    · cases hce : canEdit d u with
      | false => simp [handleOperation, hst, hce, Event.isError] at hof
      | true => simp [handleOperation, hst, hce, hty, hzero, Event.isError] at hof
  · intro st d u op hst hce hty hzero
    simp [handleOperation, hst, hce, hty, hzero]

/-- Server state used by the C7 witness. -/
def c7State : ServerState := ⟨some ⟨['A', 'B'], 1, "u1", [], []⟩, [], ["u1"], ["u1"]⟩

/-- Witness for the amended C7: a delete of length 2 is accepted and indeed
has nonzero length, and a delete of length 0 is answered with the
error_message and an unchanged state. -/
theorem c7_amended_delete_validation_witness :
    (⟨"delete", 0, [], 2, 1⟩ : Operation).type = "delete" ∧
    ((handleOperation c7State "u1" ⟨"delete", 0, [], 2, 1⟩).2.any Event.isError) = false ∧
    (⟨"delete", 0, [], 2, 1⟩ : Operation).length ≠ 0 ∧
    handleOperation c7State "u1" ⟨"delete", 0, [], 0, 1⟩ =
      (c7State, [Event.errorMessage "Delete operation requires length."]) :=
  ⟨rfl, by decide,
    c7_amended_delete_validation.1 c7State "u1" ⟨"delete", 0, [], 2, 1⟩ rfl (by decide),
    c7_amended_delete_validation.2 c7State ⟨['A', 'B'], 1, "u1", [], []⟩ "u1"
      ⟨"delete", 0, [], 0, 1⟩ rfl (by decide) rfl rfl⟩

/-! Claim C8: transforming against a noop is the identity. -/

/-- Claim C8: for every operation op and every operation b whose type is
noop, transformOperation op b returns op itself, with every field (type,
position, text, length, baseVersion) unchanged: none of the four transform
blocks fires when b has type noop. -/
theorem c8_transform_noop_identity (op b : Operation) (hb : b.type = "noop") :
    transformOperation op b = op := by
  simp [transformOperation, hb]

/-- Witness for C8 at a concrete input. -/
theorem c8_transform_noop_identity_witness :
    (⟨"noop", 0, [], 0, 0⟩ : Operation).type = "noop" ∧
    transformOperation ⟨"insert", 3, ['A'], 0, 5⟩ ⟨"noop", 0, [], 0, 0⟩ =
      ⟨"insert", 3, ['A'], 0, 5⟩ :=
  ⟨rfl, c8_transform_noop_identity ⟨"insert", 3, ['A'], 0, 5⟩ ⟨"noop", 0, [], 0, 0⟩ rfl⟩

/-! Claim C9: transformOperation is pure with respect to its arguments. -/

/-- Claim C9: against the explicit object heap, transformOperation allocates
a fresh cell holding exactly the pure transform of the two dereferenced
arguments and returns its reference; the heap below the fresh cell is
preserved unchanged, so in particular the argument objects (for example
server-accepted operations stored in the operation buffer) are never
mutated. -/
theorem c9_transform_pure (h : List Operation) (ia ib : Nat)
    (hia : ia < h.length) (hib : ib < h.length) :
    transformOperationRef h ia ib =
      (h ++ [transformOperation (readOp h ia) (readOp h ib)], h.length) ∧
    ∀ i, i < h.length →
      readOp (transformOperationRef h ia ib).1 i = readOp h i := by
  have he : transformOperationRef h ia ib =
      (h ++ [transformOperation (readOp h ia) (readOp h ib)], h.length) := by
    simp only [transformOperationRef, transformOperation]
    rw [refStage1 h ia ib _ hia hib, refStage2 h ia ib _ hia hib,
      refStage3 h ia ib _ hia hib, refStage4 h ia ib _ hia hib]
  refine ⟨he, fun i hi => ?_⟩
  rw [he]
  exact readOp_append_lt _ _ _ hi

/-- Heap used by the C9 witness: the two argument objects. -/
def c9Heap : List Operation := [⟨"insert", 1, ['X'], 0, 1⟩, ⟨"insert", 1, ['B'], 0, 1⟩]

/-- Witness for C9 at a concrete two-object heap. -/
theorem c9_transform_pure_witness :
    0 < c9Heap.length ∧ 1 < c9Heap.length ∧
    transformOperationRef c9Heap 0 1 = (c9Heap ++ [⟨"insert", 2, ['X'], 0, 1⟩], 2) ∧
    readOp (transformOperationRef c9Heap 0 1).1 0 = readOp c9Heap 0 :=
  ⟨by decide, by decide,
    ((c9_transform_pure c9Heap 0 1 (by decide) (by decide)).1).trans (by decide),
    (c9_transform_pure c9Heap 0 1 (by decide) (by decide)).2 0 (by decide)⟩

/-! Claim C10: room membership is not a precondition for editing. -/

/-- Claim C10: a user with edit permission who is in neither the socket room
nor the local active-user map still has an operation event processed in
full: the handler stores the processed document (version bumped by 1 for a
non-noop transform) and emits operation_ack back to that user, because the
operation handler never consults the room or active-user state. -/
theorem c10_room_membership_not_required (st : ServerState) (d : Document)
    (u : String) (op : Operation)
    (hdoc : st.document = some d) (hce : canEdit d u = true)
    (hroom : u ∉ st.roomMembers) (hactive : u ∉ st.activeUsers)
    (hty : op.type = "insert" ∨ op.type = "delete")
    (htext : op.type = "insert" → op.text ≠ [])
    (hlen : op.type = "delete" → op.length ≠ 0)
    (hn : (transformIncoming d st.buffer op).type ≠ "noop") :
    (handleOperation st u op).1.document =
      some (processOperation d st.buffer op u).document ∧
    (processOperation d st.buffer op u).document.version = d.version + 1 ∧
    (handleOperation st u op).2 =
      [Event.operationAck (processOperation d st.buffer op u).transformedOp
        (d.version + 1) u,
       Event.remoteOperation (st.roomMembers.filter (fun x => x ≠ u))
        (processOperation d st.buffer op u).transformedOp (d.version + 1) u] := by
  have hv : (processOperation d st.buffer op u).newVersion = d.version + 1 := by
    rw [processOperation_nonNoop d st.buffer op u hn]
  have hdv : (processOperation d st.buffer op u).document.version = d.version + 1 := by
    rw [processOperation_nonNoop d st.buffer op u hn]
  rcases hty with hty | hty
  · have h2 : op.text ≠ [] := htext hty
    simp [handleOperation, hdoc, hce, hty, h2, hv, hdv]
  · have h3 : op.length ≠ 0 := hlen hty
    simp [handleOperation, hdoc, hce, hty, h3, hv, hdv]

/-- Document used by the C10 witness. -/
def c10Doc : Document := ⟨['A'], 1, "u1", [], []⟩

/-- Server state used by the C10 witness: user u1 is in neither the room
nor the active-user map. -/
def c10State : ServerState := ⟨some c10Doc, [], ["v2"], []⟩

/-- Operation used by the C10 witness. -/
def c10Op : Operation := ⟨"insert", 0, ['Z'], 0, 1⟩

/-- Witness for C10 at a concrete input. -/
theorem c10_room_membership_not_required_witness :
    c10State.document = some c10Doc ∧ canEdit c10Doc "u1" = true ∧
    "u1" ∉ c10State.roomMembers ∧ "u1" ∉ c10State.activeUsers ∧
    (transformIncoming c10Doc c10State.buffer c10Op).type ≠ "noop" ∧
    ((handleOperation c10State "u1" c10Op).1.document =
        some (processOperation c10Doc c10State.buffer c10Op "u1").document ∧
      (processOperation c10Doc c10State.buffer c10Op "u1").document.version = c10Doc.version + 1 ∧
      (handleOperation c10State "u1" c10Op).2 =
        [Event.operationAck (processOperation c10Doc c10State.buffer c10Op "u1").transformedOp
          (c10Doc.version + 1) "u1",
         Event.remoteOperation (c10State.roomMembers.filter (fun x => x ≠ "u1"))
          (processOperation c10Doc c10State.buffer c10Op "u1").transformedOp
          (c10Doc.version + 1) "u1"]) :=
  ⟨rfl, by decide, by decide, by decide, by decide,
    c10_room_membership_not_required c10State c10Doc "u1" c10Op rfl (by decide)
      (by decide) (by decide) (Or.inl rfl) (fun _ => by decide)
      (fun hx => absurd hx (by decide)) (by decide)⟩

end CollabDocs
